import Mathlib

/-!
Shallow embedding of the Express backend bootstrap in
`src/index.js` (variant 1) and `src/unnamed/part_000` (variant 2):
environment validation, CORS policy construction, route mounting with the
auth gate, the `/health` handler, the `/api/products` search proxy, and the
connect-then-listen bootstrap sequence.

Environment variables are modelled as `Option String` (a variable is either
unset, or set to a string, possibly empty).  JavaScript truthiness of
`process.env.X` is `envTruthy`.
-/

/-- A process environment: the variables the two bootstrap variants read. -/
structure Env where
  CLERK_SECRET_KEY : Option String
  CLERK_PUBLISHABLE_KEY : Option String
  VITE_CLERK_SECRET_KEY : Option String
  VITE_CLERK_PUBLISHABLE_KEY : Option String
  FRONTEND_URL : Option String
  PORT : Option String
  VITE_SERPAPI_KEY : Option String
  NODE_ENV : Option String
deriving DecidableEq, Repr

/-- JavaScript truthiness of an environment value (`!!process.env.X`,
`Boolean(x)` in `filter(Boolean)`): an unset variable and the empty string
are falsy, every other string is truthy. -/
def envTruthy : Option String → Bool
  | none => false
  | some s => s ≠ ""

/-- A JavaScript value that is either a string or a number, as produced by
`process.env.PORT || 3000`. -/
inductive JsValue
  | str (s : String)
  | num (n : Nat)
deriving DecidableEq, Repr

/-- `const PORT = process.env.PORT || 3000;` (src/index.js line 17,
src/unnamed/part_000 line 16). -/
def portOf (env : Env) : JsValue :=
  match env.PORT with
  | some s => if s ≠ "" then .str s else .num 3000
  | none => .num 3000

/-- Result of the synchronous startup environment check. -/
inductive StartupCheck
  | ok
  | fatal (exitCode : Nat) (diagnostic : String)
deriving DecidableEq, Repr

/-- Environment check of variant 1 (src/index.js lines 20-25): a missing
`CLERK_SECRET_KEY` logs a diagnostic and exits with status 1. -/
def envCheck (env : Env) : StartupCheck :=
  if envTruthy env.CLERK_SECRET_KEY then .ok
  else .fatal 1 "❌ Missing: CLERK_SECRET_KEY..."

/-- Environment check of variant 2 (src/unnamed/part_000 lines 19-28): it
requires `VITE_CLERK_SECRET_KEY` and `VITE_CLERK_PUBLISHABLE_KEY`, exiting
with status 1 at the first missing one. -/
def envCheckV2 (env : Env) : StartupCheck :=
  if envTruthy env.VITE_CLERK_SECRET_KEY then
    if envTruthy env.VITE_CLERK_PUBLISHABLE_KEY then .ok
    else .fatal 1 "❌ Missing: VITE_CLERK_PUBLISHABLE_KEY"
  else .fatal 1 "❌ Missing: VITE_CLERK_SECRET_KEY..."

/-- CORS options object passed to `cors(...)` (src/index.js lines 61-79,
src/unnamed/part_000 lines 42-58). -/
structure CorsOptions where
  origin : List String
  credentials : Bool
  methods : List String
  allowedHeaders : List String
deriving DecidableEq, Repr

/-- The CORS options constructed at startup: the origin allow-list is
`[FRONTEND_URL, two localhost dev origins, the Clerk domain].filter(Boolean)`,
so unset (or empty) entries are dropped. -/
def corsOptions (env : Env) : CorsOptions where
  origin :=
    [env.FRONTEND_URL,
     some "http://localhost:5173",
     some "http://localhost:5174",
     some "https://api.clerk.dev"].filterMap
      (fun o => if envTruthy o then o else none)
  credentials := true
  methods := ["GET", "POST", "PUT", "DELETE", "OPTIONS"]
  allowedHeaders :=
    ["Content-Type", "Authorization", "Svix-Id", "Svix-Timestamp",
     "Svix-Signature"]

/-- Body of the `/health` response of variant 1 (src/index.js lines 82-88). -/
structure HealthBody where
  message : String
  clerkConfigured : Bool
  nodeEnv : Option String
deriving DecidableEq, Repr

/-- Variant 1 `/health` handler: `res.json` responds with status 200 and the
body reports `!!process.env.CLERK_SECRET_KEY`. -/
def healthHandler (env : Env) : Nat × HealthBody :=
  (200,
   { message := "✅ Backend running successfully!"
     clerkConfigured := envTruthy env.CLERK_SECRET_KEY
     nodeEnv := env.NODE_ENV })

/-- Body of the `/health` response of variant 2
(src/unnamed/part_000 lines 61-67). -/
structure HealthBodyV2 where
  message : String
  clerkConfigured : Bool
  publishableKeyLoaded : Bool
deriving DecidableEq, Repr

/-- Variant 2 `/health` handler: it reports `!!process.env.CLERK_SECRET_KEY`
and `!!process.env.CLERK_PUBLISHABLE_KEY` — note these are NOT the
`VITE_`-named variables its own startup validator requires. -/
def healthHandlerV2 (env : Env) : Nat × HealthBodyV2 :=
  (200,
   { message := "✅ Backend running successfully!"
     clerkConfigured := envTruthy env.CLERK_SECRET_KEY
     publishableKeyLoaded := envTruthy env.CLERK_PUBLISHABLE_KEY })

/-- Modelled from the spec: the external `requireAuth()` middleware of
`@clerk/express` is not part of this repository; per spec §4.4 the gate
short-circuits with an unauthorized response (401) when the request carries
no valid session credential, and otherwise lets the request proceed. -/
def requireAuthGate (validSession : Bool) : Option Nat :=
  if validSession then none else some 401

/-- The route groups mounted by both variants, in mounting order, paired
with whether `requireAuth()` is applied to the group
(src/index.js lines 91-94, src/unnamed/part_000 lines 69-72). -/
def mountedRoutes : List (String × Bool) :=
  [("/api/auth", false),
   ("/api/period", true),
   ("/api/post", true),
   ("/api/spotify", false)]

/-- Outcome of routing a request into a mounted group. -/
inductive RouteOutcome
  | unauthorized (status : Nat)
  | handled (router : String)
deriving DecidableEq, Repr

/-- Dispatch into a mounted group: if the group is gated, `requireAuth()`
runs first and a missing valid session short-circuits the downstream
router; otherwise the router handles the request directly. -/
def dispatchToGroup (router : String) (gated : Bool) (validSession : Bool) :
    RouteOutcome :=
  if gated then
    match requireAuthGate validSession with
    | some status => .unauthorized status
    | none => .handled router
  else .handled router

/-- The parameter object passed to the SerpAPI `getJson` call
(src/index.js lines 100-107, src/unnamed/part_000 lines 78-85). -/
structure SerpRequest where
  engine : String
  q : String
  location : String
  hl : String
  gl : String
  api_key : Option String
deriving DecidableEq, Repr

/-- `const query = req.query.q || "period care products";` — JavaScript `||`
substitutes the default when `req.query.q` is undefined or the empty
string. -/
def effectiveQuery (q : Option String) : String :=
  match q with
  | some s => if s ≠ "" then s else "period care products"
  | none => "period care products"

/-- The downstream search request built by the `/api/products` handler:
fixed engine/locale fields, the effective query, and
`api_key: process.env.VITE_SERPAPI_KEY` (forwarded even when unset). -/
def serpRequest (env : Env) (q : Option String) : SerpRequest where
  engine := "google_shopping"
  q := effectiveQuery q
  location := "India"
  hl := "en"
  gl := "in"
  api_key := env.VITE_SERPAPI_KEY

/-- The provider's response object; `shopping_results` may be absent
(undefined), modelled as `none`.  Individual result items are opaque to this
core and modelled as strings. -/
structure SerpResponse where
  shopping_results : Option (List String)
deriving DecidableEq, Repr

/-- A JSON response body produced by the `/api/products` handler. -/
inductive ProductsBody
  | products (items : List String)
  | errorMsg (msg : String)
deriving DecidableEq, Repr

/-- What the `/api/products` handler produced: HTTP status, JSON body, and
the server-side log lines it emitted. -/
structure HandlerOut where
  status : Nat
  body : ProductsBody
  logs : List String
deriving DecidableEq, Repr

/-- The `/api/products` handler (src/index.js lines 97-113,
src/unnamed/part_000 lines 75-91): it awaits the provider on
`serpRequest env q`; on success it responds 200 with
`{ products: response.shopping_results || [] }`; on a thrown error it logs
the message server-side and responds 500 with
`{ error: "Failed to fetch products" }`. -/
def productsHandler (env : Env) (q : Option String)
    (provider : SerpRequest → Except String SerpResponse) : HandlerOut :=
  match provider (serpRequest env q) with
  | .ok response =>
      { status := 200
        body := .products (response.shopping_results.getD [])
        logs := [] }
  | .error msg =>
      { status := 500
        body := .errorMsg "Failed to fetch products"
        logs := ["❌ SerpAPI error: " ++ msg] }

/-- Outcome of the bootstrap sequence after the environment check and the
asynchronous `connectDb()` settle. -/
inductive BootOutcome
  | exited (code : Nat) (diagnostic : String)
  | listening (port : JsValue)
  | dbFailLogged (log : String)
deriving DecidableEq, Repr

/-- Variant 1 bootstrap (src/index.js lines 20-25 and 116-124): the
environment check may exit first; otherwise `connectDb()` runs, and
`app.listen(PORT, ...)` is called only in its `.then` branch; the `.catch`
branch only logs the connection failure, leaving the listener unstarted. -/
def bootstrap (env : Env) (dbResult : Except String Unit) : BootOutcome :=
  match envCheck env with
  | .fatal code diag => .exited code diag
  | .ok =>
      match dbResult with
      | .ok _ => .listening (portOf env)
      | .error msg => .dbFailLogged ("❌ MongoDB connection failed: " ++ msg)

/-- Variant 2 bootstrap (src/unnamed/part_000 lines 19-28 and 94-102): the
same shape with the `VITE_`-keyed environment check. -/
def bootstrapV2 (env : Env) (dbResult : Except String Unit) : BootOutcome :=
  match envCheckV2 env with
  | .fatal code diag => .exited code diag
  | .ok =>
      match dbResult with
      | .ok _ => .listening (portOf env)
      | .error msg => .dbFailLogged ("❌ MongoDB connection failed: " ++ msg)

/-!
Raw-body capture (src/index.js lines 50-56, src/unnamed/part_000 lines
31-35): the `express.json` verify callback stores `buf.toString()` on
`req.rawBody`.  `Buffer.prototype.toString()` UTF-8 DECODES the wire bytes
into a string (WHATWG decoding, invalid sequences replaced by U+FFFD), so a
downstream signature check that re-encodes `req.rawBody` sees
`utf8Encode (utf8Decode wire)`, not necessarily `wire` itself.

Bytes are `List Nat` (each < 256 on real input); strings are lists of
Unicode code points.
-/

/-- UTF-8 encoding of one Unicode scalar value. -/
def utf8EncodeChar (c : Nat) : List Nat :=
  if c < 0x80 then [c]
  else if c < 0x800 then [0xC0 + c / 64, 0x80 + c % 64]
  else if c < 0x10000 then
    [0xE0 + c / 4096, 0x80 + (c / 64) % 64, 0x80 + c % 64]
  else
    [0xF0 + c / 262144, 0x80 + (c / 4096) % 64, 0x80 + (c / 64) % 64,
     0x80 + c % 64]

/-- UTF-8 encoding of a sequence of code points (what a downstream
signature check hashes when it consumes the stored string). -/
def utf8Encode : List Nat → List Nat
  | [] => []
  | c :: cs => utf8EncodeChar c ++ utf8Encode cs

/-- Lower bound of the admissible second byte after a three-byte lead. -/
def cont3lo (b : Nat) : Nat := if b = 0xE0 then 0xA0 else 0x80

/-- Upper bound (exclusive) of the admissible second byte after a
three-byte lead (`0xED` must not start a surrogate). -/
def cont3hi (b : Nat) : Nat := if b = 0xED then 0xA0 else 0xC0

/-- Lower bound of the admissible second byte after a four-byte lead. -/
def cont4lo (b : Nat) : Nat := if b = 0xF0 then 0x90 else 0x80

/-- Upper bound (exclusive) of the admissible second byte after a
four-byte lead (`0xF4` must stay below U+110000). -/
def cont4hi (b : Nat) : Nat := if b = 0xF4 then 0x90 else 0xC0

/-- WHATWG-style UTF-8 decoding with U+FFFD replacement, the semantics of
Node's `buf.toString()`: well-formed sequences decode to their scalar
value; ill-formed input produces replacement characters. -/
def utf8Decode : List Nat → List Nat
  | [] => []
  | b :: rest =>
    if b < 0x80 then b :: utf8Decode rest
    else if b < 0xC2 then 0xFFFD :: utf8Decode rest
    else if b < 0xE0 then
      match rest with
      | [] => [0xFFFD]
      | b1 :: r =>
        if 0x80 ≤ b1 ∧ b1 < 0xC0 then
          ((b - 0xC0) * 64 + (b1 - 0x80)) :: utf8Decode r
        else 0xFFFD :: utf8Decode (b1 :: r)
    else if b < 0xF0 then
      match rest with
      | [] => [0xFFFD]
      | b1 :: r =>
        if cont3lo b ≤ b1 ∧ b1 < cont3hi b then
          match r with
          | [] => [0xFFFD]
          | b2 :: r2 =>
            if 0x80 ≤ b2 ∧ b2 < 0xC0 then
              ((b - 0xE0) * 4096 + (b1 - 0x80) * 64 + (b2 - 0x80)) ::
                utf8Decode r2
            else 0xFFFD :: utf8Decode (b2 :: r2)
        else 0xFFFD :: utf8Decode (b1 :: r)
    else if b < 0xF5 then
      match rest with
      | [] => [0xFFFD]
      | b1 :: r =>
        if cont4lo b ≤ b1 ∧ b1 < cont4hi b then
          match r with
          | [] => [0xFFFD]
          | b2 :: r2 =>
            if 0x80 ≤ b2 ∧ b2 < 0xC0 then
              match r2 with
              | [] => [0xFFFD]
              | b3 :: r3 =>
                if 0x80 ≤ b3 ∧ b3 < 0xC0 then
                  ((b - 0xF0) * 262144 + (b1 - 0x80) * 4096 +
                    (b2 - 0x80) * 64 + (b3 - 0x80)) :: utf8Decode r3
                else 0xFFFD :: utf8Decode (b3 :: r3)
            else 0xFFFD :: utf8Decode (b2 :: r2)
        else 0xFFFD :: utf8Decode (b1 :: r)
    else 0xFFFD :: utf8Decode rest
termination_by l => l.length
decreasing_by all_goals simp_arith

/-- `req.rawBody = buf.toString()`: the stored string, as code points. -/
def rawBody (wire : List Nat) : List Nat := utf8Decode wire

/-- The byte sequence a downstream signature check observes when it hashes
the stored `req.rawBody` string (UTF-8 re-encoding of the decoded body). -/
def signatureViewOfRawBody (wire : List Nat) : List Nat :=
  utf8Encode (rawBody wire)

/-- A code point is a Unicode scalar value: below U+110000 and not a
surrogate. -/
def ScalarValue (c : Nat) : Prop :=
  c < 0x110000 ∧ ¬(0xD800 ≤ c ∧ c < 0xE000)

instance (c : Nat) : Decidable (ScalarValue c) := by
  unfold ScalarValue; infer_instance

/-! UTF-8 round-trip lemmas shared by the raw-body theorems. -/

theorem utf8Decode_ascii (b : Nat) (rest : List Nat) (h : b < 0x80) :
    utf8Decode (b :: rest) = b :: utf8Decode rest := by
  unfold utf8Decode
  rw [if_pos h, ← utf8Decode.eq_def]

theorem utf8Decode_two (b b1 : Nat) (rest : List Nat)
    (hb1 : 0xC2 ≤ b) (hb2 : b < 0xE0) (hc : 0x80 ≤ b1 ∧ b1 < 0xC0) :
    utf8Decode (b :: b1 :: rest)
      = ((b - 0xC0) * 64 + (b1 - 0x80)) :: utf8Decode rest := by
  unfold utf8Decode
  rw [if_neg (by omega), if_neg (by omega), if_pos hb2]
  simp only []
  rw [if_pos hc, ← utf8Decode.eq_def]

theorem utf8Decode_three (b b1 b2 : Nat) (rest : List Nat)
    (hb1 : 0xE0 ≤ b) (hb2 : b < 0xF0)
    (hc1 : cont3lo b ≤ b1 ∧ b1 < cont3hi b)
    (hc2 : 0x80 ≤ b2 ∧ b2 < 0xC0) :
    utf8Decode (b :: b1 :: b2 :: rest)
      = ((b - 0xE0) * 4096 + (b1 - 0x80) * 64 + (b2 - 0x80)) ::
          utf8Decode rest := by
  unfold utf8Decode
  rw [if_neg (by omega), if_neg (by omega), if_neg (by omega), if_pos hb2]
  simp only []
  rw [if_pos hc1, if_pos hc2, ← utf8Decode.eq_def]

theorem utf8Decode_four (b b1 b2 b3 : Nat) (rest : List Nat)
    (hb1 : 0xF0 ≤ b) (hb2 : b < 0xF5)
    (hc1 : cont4lo b ≤ b1 ∧ b1 < cont4hi b)
    (hc2 : 0x80 ≤ b2 ∧ b2 < 0xC0) (hc3 : 0x80 ≤ b3 ∧ b3 < 0xC0) :
    utf8Decode (b :: b1 :: b2 :: b3 :: rest)
      = ((b - 0xF0) * 262144 + (b1 - 0x80) * 4096 + (b2 - 0x80) * 64 +
          (b3 - 0x80)) :: utf8Decode rest := by
  unfold utf8Decode
  rw [if_neg (by omega), if_neg (by omega), if_neg (by omega),
    if_neg (by omega), if_pos hb2]
  simp only []
  rw [if_pos hc1, if_pos hc2, if_pos hc3, ← utf8Decode.eq_def]

set_option maxRecDepth 8192 in
theorem utf8Decode_encodeChar (c : Nat) (rest : List Nat) (h : ScalarValue c) :
    utf8Decode (utf8EncodeChar c ++ rest) = c :: utf8Decode rest := by
  obtain ⟨h1, h2⟩ := h
  by_cases hc1 : c < 0x80
  · rw [utf8EncodeChar, if_pos hc1]
    exact utf8Decode_ascii c rest hc1
  · by_cases hc2 : c < 0x800
    · rw [utf8EncodeChar, if_neg hc1, if_pos hc2]
      rw [show [0xC0 + c / 64, 0x80 + c % 64] ++ rest
          = (0xC0 + c / 64) :: (0x80 + c % 64) :: rest from rfl]
      rw [utf8Decode_two _ _ _ (by omega) (by omega) (by omega)]
      congr 1
      omega
    · by_cases hc3 : c < 0x10000
      · rw [utf8EncodeChar, if_neg hc1, if_neg hc2, if_pos hc3]
        rw [show [0xE0 + c / 4096, 0x80 + c / 64 % 64, 0x80 + c % 64] ++ rest
            = (0xE0 + c / 4096) :: (0x80 + c / 64 % 64) ::
                (0x80 + c % 64) :: rest from rfl]
        rw [utf8Decode_three _ _ _ _ (by omega) (by omega) ?_ (by omega)]
        · congr 1
          omega
        · refine ⟨?_, ?_⟩
          · unfold cont3lo
            split_ifs with h0 <;> omega
          · unfold cont3hi
            split_ifs with h0 <;> omega
      · rw [utf8EncodeChar, if_neg hc1, if_neg hc2, if_neg hc3]
        rw [show [0xF0 + c / 262144, 0x80 + c / 4096 % 64, 0x80 + c / 64 % 64,
              0x80 + c % 64] ++ rest
            = (0xF0 + c / 262144) :: (0x80 + c / 4096 % 64) ::
                (0x80 + c / 64 % 64) :: (0x80 + c % 64) :: rest from rfl]
        rw [utf8Decode_four _ _ _ _ _ (by omega) (by omega) ?_ (by omega)
          (by omega)]
        · congr 1
          omega
        · refine ⟨?_, ?_⟩
          · unfold cont4lo
            split_ifs with h0 <;> omega
          · unfold cont4hi
            split_ifs with h0 <;> omega

theorem utf8Decode_utf8Encode (s : List Nat) (h : ∀ c ∈ s, ScalarValue c) :
    utf8Decode (utf8Encode s) = s := by
  induction s with
  | nil => simp [utf8Encode, utf8Decode]
  | cons c cs ih =>
      show utf8Decode (utf8EncodeChar c ++ utf8Encode cs) = c :: cs
      rw [utf8Decode_encodeChar c (utf8Encode cs) (h c (by simp)),
        ih (fun x hx => h x (by simp [hx]))]

/-- C1: every request entering the gated groups `/api/period` and
`/api/post` without a valid session credential gets status 401 and never
reaches the downstream router; the `/api/auth` and `/api/spotify` groups
carry no gate, and the `/api/products` handler responds 200 or 500 on
every path, never through an auth gate. -/
theorem gated_routes_401_open_routes_pass :
    (∀ pr ∈ mountedRoutes,
        pr.2 = true ↔ (pr.1 = "/api/period" ∨ pr.1 = "/api/post")) ∧
    (∀ pr ∈ mountedRoutes, pr.2 = true →
        dispatchToGroup pr.1 pr.2 false = .unauthorized 401) ∧
    (∀ pr ∈ mountedRoutes, ∀ v, pr.2 = false →
        dispatchToGroup pr.1 pr.2 v = .handled pr.1) ∧
    (∀ env q provider, (productsHandler env q provider).status = 200 ∨
        (productsHandler env q provider).status = 500) := by
  refine ⟨by decide, by decide, by decide, fun env q provider => ?_⟩
  unfold productsHandler
  cases provider (serpRequest env q) <;> simp

/-- C1 witness: an unauthenticated request to `/api/period` is rejected
with 401 and no handler runs. -/
theorem gated_routes_401_open_routes_pass_witness :
    dispatchToGroup "/api/period" true false = .unauthorized 401 :=
  gated_routes_401_open_routes_pass.2.1 ("/api/period", true) (by decide) rfl

/-- C2 counterexample: the stored raw body is `buf.toString()`, a UTF-8
decode; for the one-byte wire body `0xFF` the downstream signature check
re-encodes the stored string to `EF BF BD` (U+FFFD), which is not
byte-identical to the wire payload. -/
theorem rawBody_signature_view_not_byte_identical :
    ¬ (signatureViewOfRawBody [0xFF] = [0xFF]) := by
  simp [signatureViewOfRawBody, rawBody, utf8Decode, utf8Encode,
    utf8EncodeChar]

/-- C2 (amended): for every request body that is valid UTF-8 (the encoding
of a sequence of Unicode scalar values), the raw body attached by the
verify callback re-encodes to exactly the wire bytes, so a downstream
signature check sees the wire payload. -/
theorem rawBody_signature_view_id_on_valid_utf8 (s wire : List Nat)
    (hs : ∀ c ∈ s, ScalarValue c) (hw : wire = utf8Encode s) :
    signatureViewOfRawBody wire = wire := by
  subst hw
  unfold signatureViewOfRawBody rawBody
  rw [utf8Decode_utf8Encode s hs]

/-- C2 witness: the ASCII JSON body `\x7b"a":1\x7d` round-trips
byte-identically. -/
theorem rawBody_signature_view_id_on_valid_utf8_witness :
    signatureViewOfRawBody [123, 34, 97, 34, 58, 49, 125]
      = [123, 34, 97, 34, 58, 49, 125] :=
  rawBody_signature_view_id_on_valid_utf8 [123, 34, 97, 34, 58, 49, 125] _
    (by decide) (by simp [utf8Encode, utf8EncodeChar])

/-- C3: in either variant, a missing required environment value makes the
bootstrap emit the diagnostic naming it and exit with status 1; the
listener never starts, whatever the database would have done. -/
theorem missing_required_env_exits_before_listen (env : Env)
    (dbResult : Except String Unit) :
    (envTruthy env.CLERK_SECRET_KEY = false →
        bootstrap env dbResult
          = .exited 1 "❌ Missing: CLERK_SECRET_KEY..." ∧
        ∀ p, bootstrap env dbResult ≠ .listening p) ∧
    (envTruthy env.VITE_CLERK_SECRET_KEY = false →
        bootstrapV2 env dbResult
          = .exited 1 "❌ Missing: VITE_CLERK_SECRET_KEY..." ∧
        ∀ p, bootstrapV2 env dbResult ≠ .listening p) ∧
    (envTruthy env.VITE_CLERK_SECRET_KEY = true →
      envTruthy env.VITE_CLERK_PUBLISHABLE_KEY = false →
        bootstrapV2 env dbResult
          = .exited 1 "❌ Missing: VITE_CLERK_PUBLISHABLE_KEY" ∧
        ∀ p, bootstrapV2 env dbResult ≠ .listening p) := by
  refine ⟨fun h => ?_, fun h => ?_, fun h1 h2 => ?_⟩
  · simp [bootstrap, envCheck, h]
  · simp [bootstrapV2, envCheckV2, h]
  · simp [bootstrapV2, envCheckV2, h1, h2]

/-- C3 witness: with an empty environment, variant 1 exits with status 1
and the `CLERK_SECRET_KEY` diagnostic even though the database connection
would have succeeded. -/
theorem missing_required_env_exits_before_listen_witness :
    bootstrap ⟨none, none, none, none, none, none, none, none⟩ (.ok ())
      = .exited 1 "❌ Missing: CLERK_SECRET_KEY..." :=
  ((missing_required_env_exits_before_listen
      ⟨none, none, none, none, none, none, none, none⟩ (.ok ())).1 rfl).1

/-- C4: whenever the provider call throws, the `/api/products` handler
logs the failure server-side and responds 500 with exactly
`error: "Failed to fetch products"` — the body is a constant independent
of the provider's error message, so no provider detail leaks. -/
theorem products_provider_error_500_generic (env : Env) (q : Option String)
    (msg : String) :
    productsHandler env q (fun _ => .error msg)
      = { status := 500, body := .errorMsg "Failed to fetch products",
          logs := ["❌ SerpAPI error: " ++ msg] } := rfl

/-- C5: with no `q` parameter the downstream search call uses the default
phrase "period care products", and whenever the provider returns no
result list the response is 200 with `products: []`. -/
theorem products_default_query_and_empty_list (env : Env) (q : Option String)
    (resp : SerpResponse) :
    (serpRequest env none).q = "period care products" ∧
    (resp.shopping_results = none →
      productsHandler env q (fun _ => .ok resp)
        = { status := 200, body := .products [], logs := [] }) := by
  refine ⟨rfl, fun h => ?_⟩
  simp [productsHandler, h]

/-- C5 witness: a request without `q` against a provider response lacking
`shopping_results` yields 200 with an empty products list. -/
theorem products_default_query_and_empty_list_witness :
    productsHandler ⟨none, none, none, none, none, none, none, none⟩ none
      (fun _ => .ok ⟨none⟩)
      = { status := 200, body := .products [], logs := [] } :=
  (products_default_query_and_empty_list
      ⟨none, none, none, none, none, none, none, none⟩ none ⟨none⟩).2 rfl

/-- C6: both `/health` handlers always respond 200, and variant 1 reports
exactly the presence of `CLERK_SECRET_KEY`, the value its validator
requires; but variant 2 is untruthful: its validator requires the
`VITE_`-named keys while its health body reports `CLERK_SECRET_KEY` and
`CLERK_PUBLISHABLE_KEY`, so in an environment where only the required
`VITE_` keys are set (startup succeeds) both reported booleans are false. -/
theorem health_truthful_v1_mismatch_v2 :
    (∀ env : Env,
      (healthHandler env).1 = 200 ∧ (healthHandlerV2 env).1 = 200 ∧
      (healthHandler env).2.clerkConfigured
        = envTruthy env.CLERK_SECRET_KEY) ∧
    (envCheckV2 ⟨none, none, some "sk_test_abc", some "pk_test_abc",
        none, none, none, none⟩ = .ok ∧
     (healthHandlerV2 ⟨none, none, some "sk_test_abc", some "pk_test_abc",
        none, none, none, none⟩).2.clerkConfigured = false ∧
     (healthHandlerV2 ⟨none, none, some "sk_test_abc", some "pk_test_abc",
        none, none, none, none⟩).2.publishableKeyLoaded = false) :=
  ⟨fun env => ⟨rfl, rfl, rfl⟩, by decide, rfl, rfl⟩

/-- C7: the CORS policy has the fixed method set, the five allowed headers
including the three Svix signature headers, and an origin allow-list that
drops an unset (or empty) frontend origin and otherwise prepends it to the
two development origins and the Clerk domain. -/
theorem cors_policy_shape (env : Env) :
    (corsOptions env).methods = ["GET", "POST", "PUT", "DELETE", "OPTIONS"] ∧
    (corsOptions env).allowedHeaders
      = ["Content-Type", "Authorization", "Svix-Id", "Svix-Timestamp",
         "Svix-Signature"] ∧
    (envTruthy env.FRONTEND_URL = false →
      (corsOptions env).origin
        = ["http://localhost:5173", "http://localhost:5174",
           "https://api.clerk.dev"]) ∧
    (∀ u, env.FRONTEND_URL = some u → u ≠ "" →
      (corsOptions env).origin
        = [u, "http://localhost:5173", "http://localhost:5174",
           "https://api.clerk.dev"]) := by
  refine ⟨rfl, rfl, fun h => ?_, fun u hu hne => ?_⟩
  · match he : env.FRONTEND_URL with
    | none => simp [corsOptions, he, envTruthy]
    | some s =>
        rw [he] at h
        have hs : s = "" := by simpa [envTruthy] using h
        subst hs
        simp [corsOptions, he, envTruthy]
  · simp [corsOptions, hu, envTruthy, hne]

/-- C7 witness: with `FRONTEND_URL` set to a non-empty origin, the
allow-list is that origin followed by the three fixed entries. -/
theorem cors_policy_shape_witness :
    (corsOptions ⟨none, none, none, none, some "https://app.example.com",
        none, none, none⟩).origin
      = ["https://app.example.com", "http://localhost:5173",
         "http://localhost:5174", "https://api.clerk.dev"] :=
  (cors_policy_shape ⟨none, none, none, none, some "https://app.example.com",
      none, none, none⟩).2.2.2 "https://app.example.com" rfl (by decide)

/-- C8: in both variants the listener starts exactly when the environment
check passed and `connectDb()` resolved, on `PORT || 3000`; an unset
`PORT` yields the default 3000; and a rejected connection is logged with
the MongoDB failure message, leaving the listener unstarted (neither
variant exits in the `.catch` branch). -/
theorem listen_only_after_db_connect (env : Env)
    (dbResult : Except String Unit) :
    (∀ p, bootstrap env dbResult = .listening p →
        dbResult = .ok () ∧ p = portOf env) ∧
    (∀ p, bootstrapV2 env dbResult = .listening p →
        dbResult = .ok () ∧ p = portOf env) ∧
    (envCheck env = .ok → dbResult = .ok () →
        bootstrap env dbResult = .listening (portOf env)) ∧
    (envCheckV2 env = .ok → dbResult = .ok () →
        bootstrapV2 env dbResult = .listening (portOf env)) ∧
    (env.PORT = none → portOf env = .num 3000) ∧
    (∀ msg, envCheck env = .ok → dbResult = .error msg →
        bootstrap env dbResult
          = .dbFailLogged ("❌ MongoDB connection failed: " ++ msg)) ∧
    (∀ msg, envCheckV2 env = .ok → dbResult = .error msg →
        bootstrapV2 env dbResult
          = .dbFailLogged ("❌ MongoDB connection failed: " ++ msg)) := by
  refine ⟨?_, ?_, ?_, ?_, ?_, ?_, ?_⟩
  · intro p hl
    cases he : envCheck env with
    | fatal c d => simp [bootstrap, he] at hl
    | ok =>
      cases dbResult with
      | ok u =>
          cases u
          simp [bootstrap, he] at hl
          exact ⟨rfl, hl.symm⟩
      | error m => simp [bootstrap, he] at hl
  · intro p hl
    cases he : envCheckV2 env with
    | fatal c d => simp [bootstrapV2, he] at hl
    | ok =>
      cases dbResult with
      | ok u =>
          cases u
          simp [bootstrapV2, he] at hl
          exact ⟨rfl, hl.symm⟩
      | error m => simp [bootstrapV2, he] at hl
  · intro he hd
    subst hd
    simp [bootstrap, he]
  · intro he hd
    subst hd
    simp [bootstrapV2, he]
  · intro hp
    simp [portOf, hp]
  · intro msg he hd
    subst hd
    simp [bootstrap, he]
  · intro msg he hd
    subst hd
    simp [bootstrapV2, he]

/-- C8 witness: with the Clerk secret set, `PORT` unset, and a successful
connection, variant 1 listens on the default port 3000. -/
theorem listen_only_after_db_connect_witness :
    bootstrap ⟨some "sk_test_abc", none, some "sk_test_abc",
        some "pk_test_abc", none, none, none, none⟩ (.ok ())
      = .listening (.num 3000) := by
  have h := (listen_only_after_db_connect ⟨some "sk_test_abc", none,
      some "sk_test_abc", some "pk_test_abc", none, none, none, none⟩
      (.ok ())).2.2.1 (by decide) rfl
  simpa using h

/-- C9: a present-but-empty `q` parameter is treated by `req.query.q || d`
exactly like an absent one — the downstream call uses the default phrase
"period care products" — while a non-empty `q` passes through unchanged. -/
theorem products_empty_query_uses_default (env : Env) :
    (serpRequest env (some "")).q = "period care products" ∧
    (serpRequest env none).q = "period care products" ∧
    (∀ s, s ≠ "" → (serpRequest env (some s)).q = s) := by
  refine ⟨by simp [serpRequest, effectiveQuery], rfl, fun s hs => ?_⟩
  simp [serpRequest, effectiveQuery, hs]

/-- C9 witness: a non-empty query passes through to the provider call. -/
theorem products_empty_query_uses_default_witness :
    (serpRequest ⟨none, none, none, none, none, none, none, none⟩
        (some "tampons")).q = "tampons" :=
  (products_empty_query_uses_default
      ⟨none, none, none, none, none, none, none, none⟩).2.2 "tampons"
    (by decide)

/-- C10: each variant's startup validation depends only on its Clerk
key(s); with those keys set and the search-provider key, frontend origin,
and port all unset, both variants reach the Listening state on port 3000,
and every `/api/products` request then forwards an unset `api_key` to the
provider. -/
theorem startup_requires_only_clerk_keys (env : Env) :
    (envCheck env = .ok ↔ envTruthy env.CLERK_SECRET_KEY = true) ∧
    (envCheckV2 env = .ok ↔
      (envTruthy env.VITE_CLERK_SECRET_KEY = true ∧
       envTruthy env.VITE_CLERK_PUBLISHABLE_KEY = true)) ∧
    bootstrap ⟨some "sk_live_abc", none, some "sk_live_abc",
      some "pk_live_abc", none, none, none, none⟩ (.ok ())
      = .listening (.num 3000) ∧
    bootstrapV2 ⟨some "sk_live_abc", none, some "sk_live_abc",
      some "pk_live_abc", none, none, none, none⟩ (.ok ())
      = .listening (.num 3000) ∧
    (∀ q, (serpRequest ⟨some "sk_live_abc", none, some "sk_live_abc",
      some "pk_live_abc", none, none, none, none⟩ q).api_key = none) := by
  refine ⟨?_, ?_, by decide, by decide, fun q => rfl⟩
  · by_cases h : envTruthy env.CLERK_SECRET_KEY <;> simp [envCheck, h]
  · by_cases h1 : envTruthy env.VITE_CLERK_SECRET_KEY <;>
      by_cases h2 : envTruthy env.VITE_CLERK_PUBLISHABLE_KEY <;>
      simp [envCheckV2, h1, h2]

/-- C10 witness: variant 1's check passes with only the Clerk secret set. -/
theorem startup_requires_only_clerk_keys_witness :
    envCheck ⟨some "sk_live_abc", none, some "sk_live_abc",
      some "pk_live_abc", none, none, none, none⟩ = .ok :=
  (startup_requires_only_clerk_keys ⟨some "sk_live_abc", none,
      some "sk_live_abc", some "pk_live_abc", none, none, none, none⟩).1.mpr
    rfl
